import Mathlib

/-!
Verification development for the per-guild voice session lifecycle manager of
the DiscordBot repository (src/voicecontroller.py, src/main.py).

The Python code is shallowly embedded: timestamps are naturals (seconds),
the registry dict is an insertion-ordered association list, asyncio locks
are booleans, and the external Discord collaborators (guild lookup, voice
client, notification channel) are supplied as explicit environment values.
Effects (disconnects performed, notifications sent) are returned as lists.
-/

namespace DiscordBot

/- Timestamps are naturals counting seconds since an arbitrary epoch; guild
(tenant) and text-channel identifiers are naturals as well. -/

/-- Embedding of class GuildVoiceRecord (voicecontroller.py lines 109 to 142):
the last channel a voice command was run from, the time it was run, and the
per-guild asyncio.Lock, modelled as a boolean that is true while held. -/
structure GuildVoiceRecord where
  last_channel : Option Nat
  dt : Nat
  lock : Bool
deriving DecidableEq, Repr

/-- Constructor GuildVoiceRecord.__init__: dt defaults to now, the lock
starts free. -/
def GuildVoiceRecord.init (last_channel : Option Nat) (now : Nat) :
    GuildVoiceRecord :=
  { last_channel := last_channel, dt := now, lock := false }

/-- Property should_timeout (line 132): dt + timedelta(minutes=VC_TIMEOUT)
strictly earlier than now. The threshold tmins is in minutes. -/
def GuildVoiceRecord.should_timeout (r : GuildVoiceRecord) (tmins : Nat)
    (now : Nat) : Bool :=
  r.dt + tmins * 60 < now

/-- Method update (lines 134 to 137): record the new most recent voice
command; the lock object is untouched. -/
def GuildVoiceRecord.update (r : GuildVoiceRecord) (ch : Nat)
    (now : Nat) : GuildVoiceRecord :=
  { r with last_channel := some ch, dt := now }

/-- Method send (lines 139 to 142): the list of channels the message goes to,
which is the last channel when one is recorded and empty otherwise. -/
def GuildVoiceRecord.send (r : GuildVoiceRecord) : List Nat :=
  match r.last_channel with
  | some c => [c]
  | none => []

/-- The guild_voice_records dict: an insertion-ordered association list from
guild id to an optional record, as Python dicts preserve insertion order. -/
abbrev Registry := List (Nat × Option GuildVoiceRecord)

/-- Dict membership lookup: some v when the key is present with value v
(v itself may be none), none when the key is absent. -/
def regLookup : Registry → Nat → Option (Option GuildVoiceRecord)
  | [], _ => none
  | (g, r) :: rest, gid => if g = gid then some r else regLookup rest gid

/-- Dict assignment d[gid] = v: replace the binding in place when the key is
present, append it otherwise. -/
def regInsert : Registry → Nat → Option GuildVoiceRecord → Registry
  | [], gid, v => [(gid, v)]
  | (g, r) :: rest, gid, v =>
    if g = gid then (gid, v) :: rest else (g, r) :: regInsert rest gid v

/-- Python d.get(gid): none both when the key is absent and when it is bound
to None. -/
def regGet (reg : Registry) (gid : Nat) : Option GuildVoiceRecord :=
  (regLookup reg gid).join

/-- Prelude of the requires_guild_update decorator (lines 190 to 205): if
get(gid) yields a record, update its channel and timestamp in place;
otherwise bind gid to a fresh record for the invoking channel. -/
def recordActivity (reg : Registry) (gid : Nat) (ch : Nat)
    (now : Nat) : Registry :=
  match regGet reg gid with
  | some r => regInsert reg gid (some (r.update ch now))
  | none => regInsert reg gid (some (GuildVoiceRecord.init (some ch) now))

/-- The requires_guild_update decorator itself: record activity first, then
run the wrapped command body on the updated registry. The result pairs the
body result with the registry as left by the prelude (command bodies other
than leave never write the registry). -/
def requires_guild_update {β : Type} (body : Registry → β) (reg : Registry)
    (gid : Nat) (ch : Nat) (now : Nat) : β × Registry :=
  let upd := recordActivity reg gid ch now
  (body upd, upd)

/-- Per-guild view of the external collaborators during one sweep iteration:
whether bot.get_guild finds the guild, whether guild.voice_client exists and
reports connected, and whether the awaited disconnect or notification send
raises an unexpected exception. -/
structure GuildEnv where
  found : Bool
  hasVClient : Bool
  connected : Bool
  disconnectRaises : Bool
  sendRaises : Bool
deriving DecidableEq, Repr

/-- Result of evaluating one tenant inside a sweep cycle: the new value of
that tenant's registry entry, the guilds disconnected, the channels
notified, and whether an unexpected exception escaped the iteration. -/
structure SweepStep where
  entry : Option GuildVoiceRecord
  disconnects : List Nat
  notified : List Nat
  raised : Bool
deriving DecidableEq, Repr

/-- One tenant evaluation of inactivity_checker (lines 213 to 244). When the
guild cannot be resolved the tenant is skipped. A timed-out record is set to
None before the connectivity check; only a connected client is then
disconnected and its last channel notified. A None record with a connected
client gains a fresh placeholder record with no channel. An exception from
disconnect or send escapes the iteration with the registry writes already
performed. -/
def sweepEntry (tmins : Nat) (now : Nat) (env : GuildEnv) (gid : Nat)
    (r : Option GuildVoiceRecord) : SweepStep :=
  if ¬ env.found then ⟨r, [], [], false⟩
  else
    match r with
    | some vrecord =>
      if vrecord.should_timeout tmins now then
        if env.hasVClient && env.connected then
          if env.disconnectRaises then ⟨none, [], [], true⟩
          else if env.sendRaises then ⟨none, [gid], [], true⟩
          else ⟨none, [gid], vrecord.send, false⟩
        else ⟨none, [], [], false⟩
      else ⟨some vrecord, [], [], false⟩
    | none =>
      if env.hasVClient && env.connected then
        ⟨some (GuildVoiceRecord.init none now), [], [], false⟩
      else ⟨none, [], [], false⟩

/-- Outcome of one pass over the registry: the registry afterwards, the
effects, and whether the pass was aborted by an exception. -/
structure SweepOutcome where
  reg : Registry
  disconnects : List Nat
  notified : List Nat
  aborted : Bool
deriving DecidableEq, Repr

/-- One full scan of guild_voice_records (the for loop of
inactivity_checker). The try block wraps the whole loop, so the first
iteration that raises leaves the remaining tenants unevaluated and aborts
the pass. -/
def sweepCycle (tmins : Nat) (now : Nat) (env : Nat → GuildEnv) :
    Registry → SweepOutcome
  | [] => ⟨[], [], [], false⟩
  | (gid, r) :: rest =>
    let s := sweepEntry tmins now (env gid) gid r
    if s.raised then
      ⟨(gid, s.entry) :: rest, s.disconnects, s.notified, true⟩
    else
      let o := sweepCycle tmins now env rest
      ⟨(gid, s.entry) :: o.reg, s.disconnects ++ o.disconnects,
        s.notified ++ o.notified, o.aborted⟩

/-- The sweeper loop across cycles, fuelled by the number of sleep intervals
observed. It returns the final registry and how many cycles actually ran:
after an aborted cycle the task is finished (the exception is logged at
critical severity and not re-raised), so no further cycle runs. -/
def runSweeper (tmins : Nat) (env : Nat → GuildEnv) (interval : Nat) :
    Nat → Nat → Registry → Registry × Nat
  | 0, _, reg => (reg, 0)
  | n + 1, now, reg =>
    let o := sweepCycle tmins now env reg
    if o.aborted then (o.reg, 1)
    else
      let p := runSweeper tmins env interval n (now + interval) o.reg
      (p.1, p.2 + 1)

/-- Typed user-actionable denials (the BananaCrime messages raised by the
voice commands), identified by which raise site produced them. -/
inductive Crime where
  | notInVoiceChannel
  | alreadyInThisChannel
  | alreadyPlaying
  | lockBusy
  | giveMeText
  | invalidLanguage
  | needChannelToJoin
  | notInAVoiceChannelLeave
  | invalidSoundName
deriving DecidableEq, Repr

/-- Per-command view of the voice state a command observes: the channel the
author sits in (if any), the guild's voice client and its flags. -/
structure VoiceCtx where
  authorVoiceChannel : Option Nat
  hasVClient : Bool
  connected : Bool
  vchannel : Nat
  playing : Bool
  paused : Bool
deriving DecidableEq, Repr

/-- What the connect and prepare step did against the voice client. -/
inductive PrepAct where
  | connectedTo (c : Nat)
  | movedTo (c : Nat)
  | reusedExisting
deriving DecidableEq, Repr

/-- Helper _summon (lines 257 to 271): join the voice channel of the caller,
raising when the caller is not in one or the client already sits there. -/
def summonStep (ctx : VoiceCtx) : Except Crime PrepAct :=
  match ctx.authorVoiceChannel with
  | none => .error .notInVoiceChannel
  | some target =>
    if ctx.hasVClient && ctx.connected then
      if ctx.vchannel = target then .error .alreadyInThisChannel
      else .ok (.movedTo target)
    else .ok (.connectedTo target)

/-- Helper prepare_to_play (lines 273 to 291): summon when not connected,
refuse when already playing, otherwise reuse the existing client (stopping a
paused source). -/
def prepare_to_play (ctx : VoiceCtx) : Except Crime PrepAct :=
  if !ctx.hasVClient || !ctx.connected then summonStep ctx
  else if ctx.playing then .error .alreadyPlaying
  else .ok .reusedExisting

/-- How a command interacts with the guild lock before its guarded region:
it raises the busy crime without touching the lock, it suspends on the held
lock until the holder releases it, or it finds the lock free and acquires
it at once. -/
inductive LockGate where
  | failFast (c : Crime)
  | queuedOnLock
  | acquiredFree
deriving DecidableEq, Repr

/-- Lock protocol of the playback branches of sb (lines 378 to 381 and 391
to 394): an explicit locked() check raises the busy crime before the async
with block is entered. -/
def sbLockGate (lockHeld : Bool) : LockGate :=
  if lockHeld then .failFast .lockBusy else .acquiredFree

/-- Lock protocol of saylang (line 427), also reached by say through
ctx.invoke: a bare async with, which suspends on a held lock. -/
def saylangLockGate (lockHeld : Bool) : LockGate :=
  if lockHeld then .queuedOnLock else .acquiredFree

/-- Lock protocol of play (line 452) and of join and summon (lines 307 and
319): a bare async with as well. -/
def playLockGate (lockHeld : Bool) : LockGate :=
  if lockHeld then .queuedOnLock else .acquiredFree

/-- Observable outcome of a playback command invocation. -/
inductive CmdOutcome where
  | sentListing
  | crime (c : Crime)
  | queuedOnLock
  | played (category sound : String)
deriving DecidableEq, Repr

/-- Category listing as loaded by load_sounds: each category with its sound
names. -/
abbrev SoundCatalog := List (String × List String)

/-- The sound_to_category lookup: the first category containing the sound
(load_sounds raises on duplicates, so at most one exists). -/
def soundToCategory (cats : SoundCatalog) (s : String) : Option String :=
  (cats.find? (fun p => p.2.contains s)).map (·.1)

/-- The sb command body (lines 345 to 404), after requires_guild_update has
recorded activity. Branches in source order: no argument, all, a category
name, random, a sound name, invalid. The two playback branches check
locked() and raise the busy crime before acquiring the lock; randCat and
randSound stand for the choices random.choice made. -/
def sb (cats : SoundCatalog) (desire : Option String)
    (randCat randSound : String) (lockHeld : Bool) (ctx : VoiceCtx) :
    CmdOutcome :=
  match desire with
  | none => .sentListing
  | some d =>
    if d = "all" then .sentListing
    else if (cats.lookup d).isSome then .sentListing
    else if d = "random" then
      if lockHeld then .crime .lockBusy
      else
        match prepare_to_play ctx with
        | .error c => .crime c
        | .ok _ => .played randCat randSound
    else
      match soundToCategory cats d with
      | some category =>
        if lockHeld then .crime .lockBusy
        else
          match prepare_to_play ctx with
          | .error c => .crime c
          | .ok _ => .played category d
      | none => .crime .invalidSoundName

/-- The saylang command body (lines 412 to 443), after requires_guild_update
has recorded activity: list languages when none is given, demand text, then
enter a bare async with on the guild lock (suspending when it is held) and
prepare to play; an invalid language raises after the guarded region. -/
def saylang (validLangs : List String) (lang : Option String)
    (desire : Option String) (lockHeld : Bool) (ctx : VoiceCtx) :
    CmdOutcome :=
  match lang with
  | none => .sentListing
  | some l =>
    match desire with
    | none => .crime .giveMeText
    | some _ =>
      if lockHeld then .queuedOnLock
      else
        match prepare_to_play ctx with
        | .error c => .crime c
        | .ok _ =>
          if validLangs.contains l then .played "tts" l
          else .crime .invalidLanguage

/-- Outcome of the leave command. -/
inductive LeaveOutcome where
  | crime (c : Crime)
  | disconnectFailed
  | ok
deriving DecidableEq, Repr

/-- The leave command (lines 335 to 343). It carries no
requires_guild_update decorator: when no voice client exists it raises and
leaves the registry untouched; otherwise it sets the entry to None and only
then awaits the disconnect, so the entry stays None even when the
disconnect raises. -/
def leave (reg : Registry) (gid : Nat) (hasVClient disconnectRaises :
    Bool) : LeaveOutcome × Registry :=
  if ¬ hasVClient then (.crime .notInAVoiceChannelLeave, reg)
  else
    let cleared := regInsert reg gid none
    if disconnectRaises then (.disconnectFailed, cleared)
    else (.ok, cleared)

/-- Startup enumeration bot.fetch_guilds. Modelled from the spec
(listKnownTenants, section 6) together with the code's own docstring NOTE
at line 184, "By default, only grabs 100": the discord.py call is made with
its default limit, so at most the first 100 known guilds are yielded. The
call itself lives in the external library, not under src/. -/
def fetch_guilds (known : List Nat) : List Nat :=
  known.take 100

/-- init_guild_voice_records (lines 181 to 188): start from an empty dict
and bind every fetched guild to None. VoiceController.__init__ (lines 156
to 159) awaits this to completion with run_until_complete before it creates
the inactivity_checker task. -/
def init_guild_voice_records (fetched : List Nat) : Registry :=
  fetched.map (fun g => (g, none))

/-- The registry the first sweep cycle of a freshly constructed controller
iterates over: initialization has already run to completion. -/
def startupRegistry (known : List Nat) : Registry :=
  init_guild_voice_records (fetch_guilds known)

/-!
Interleaving model for two concurrent sb playback invocations on one guild.

Under asyncio, each task runs atomically between awaits. An sb playback
invocation has exactly two atomic segments: the first runs from the
locked() check through lock acquisition and prepare_to_play up to the await
of channel.connect() inside _summon (lock acquisition on a free
asyncio.Lock returns without yielding to the event loop); the second
resumes when connect returns, leaves the async with block (releasing the
lock) and calls vclient.play. Raising a BananaCrime inside the async with
also releases the lock within the same atomic segment.
-/

/-- Where one sb playback task stands. -/
inductive SbPhase where
  | ready
  | connecting
  | played
  | reused
  | busy
  | denied
deriving DecidableEq, Repr

/-- Shared guild state plus the phase of the two competing tasks. -/
structure RaceState where
  lockHeld : Bool
  connected : Bool
  playing : Bool
  a : SbPhase
  b : SbPhase
deriving DecidableEq, Repr

/-- One atomic segment of a single sb playback task, given the shared
state. Returns the new phase and the new shared state. From ready: a held
lock raises the busy crime at once; otherwise the lock is acquired and
prepare_to_play runs, either suspending at connect (phase connecting, lock
kept), raising already-playing (lock released by leaving the async with),
or reusing the connected idle client. From connecting: connect returns, the
lock is released and playback starts. Finished phases do nothing. -/
def phaseStep (lockHeld connected playing : Bool) (p : SbPhase) :
    SbPhase × Bool × Bool × Bool :=
  match p with
  | .ready =>
    if lockHeld then (.busy, lockHeld, connected, playing)
    else if !connected then (.connecting, true, connected, playing)
    else if playing then (.denied, false, connected, playing)
    else (.reused, false, connected, true)
  | .connecting => (.played, false, true, true)
  | p => (p, lockHeld, connected, playing)

/-- Scheduler step: run one atomic segment of task a (w true) or b. -/
def raceStep (s : RaceState) (w : Bool) : RaceState :=
  if w then
    let r := phaseStep s.lockHeld s.connected s.playing s.a
    ⟨r.2.1, r.2.2.1, r.2.2.2, r.1, s.b⟩
  else
    let r := phaseStep s.lockHeld s.connected s.playing s.b
    ⟨r.2.1, r.2.2.1, r.2.2.2, s.a, r.1⟩

/-- Initial state of the race: no connection, lock free, both tasks about
to run their first segment. -/
def raceInit : RaceState :=
  ⟨false, false, false, .ready, .ready⟩

/-- Run the race under a given schedule of scheduler choices. -/
def raceRun (sched : List Bool) : RaceState :=
  sched.foldl raceStep raceInit

/-- Reachability invariant of the race: the lock is held exactly while a
task sits inside the guarded region awaiting connect, at most one task does
so at a time, the connection exists exactly when a task completed a
connect, playback tracks the connection, at most one task ever completes a
connect, and the reuse branch is never taken. -/
def raceInv (s : RaceState) : Bool :=
  (s.lockHeld == (s.a == .connecting || s.b == .connecting)) &&
  !(s.a == .connecting && s.b == .connecting) &&
  (s.connected == (s.a == .played || s.b == .played)) &&
  (s.playing == s.connected) &&
  !(s.a == .played && s.b == .played) &&
  (!(s.a == .connecting || s.b == .connecting) || !s.connected) &&
  (s.a != .reused) && (s.b != .reused)

/-!
Shared lemmas used by the claim theorems below.
-/

instance : Fintype SbPhase :=
  ⟨⟨{SbPhase.ready, SbPhase.connecting, SbPhase.played, SbPhase.reused,
      SbPhase.busy, SbPhase.denied}, by decide⟩,
   fun x => by cases x <;> decide⟩

/-- The race invariant is preserved by every scheduler step, checked over
the whole finite state space. -/
lemma raceInv_step_aux : ∀ (l c p w : Bool) (pa pb : SbPhase),
    raceInv ⟨l, c, p, pa, pb⟩ = true →
    raceInv (raceStep ⟨l, c, p, pa, pb⟩ w) = true := by decide

lemma raceInv_step (s : RaceState) (w : Bool) (h : raceInv s = true) :
    raceInv (raceStep s w) = true := by
  obtain ⟨l, c, p, pa, pb⟩ := s
  exact raceInv_step_aux l c p w pa pb h

lemma raceInv_foldl : ∀ (sched : List Bool) (s : RaceState),
    raceInv s = true → raceInv (sched.foldl raceStep s) = true
  | [], _, h => h
  | w :: rest, s, h => raceInv_foldl rest (raceStep s w) (raceInv_step s w h)

/-- Every state reachable from the initial race state satisfies the
invariant. -/
lemma raceInv_run (sched : List Bool) : raceInv (raceRun sched) = true :=
  raceInv_foldl sched raceInit (by decide)

/-- Once the winner has connected and played and the loser was rejected,
every further schedule leaves the state fixed (winner in the first slot). -/
lemma raceStuckA : ∀ (sched : List Bool),
    sched.foldl raceStep ⟨false, true, true, .played, .busy⟩ =
      ⟨false, true, true, .played, .busy⟩
  | [] => rfl
  | w :: rest => by
    cases w <;> exact raceStuckA rest

/-- Symmetric fixed point with the winner in the second slot. -/
lemma raceStuckB : ∀ (sched : List Bool),
    sched.foldl raceStep ⟨false, true, true, .busy, .played⟩ =
      ⟨false, true, true, .busy, .played⟩
  | [] => rfl
  | w :: rest => by
    cases w <;> exact raceStuckB rest

/-- From the state where task a holds the lock awaiting connect and task b
was rejected busy, any schedule that runs task a again ends with a having
played and b still rejected. -/
lemma raceFromA : ∀ (sched : List Bool), true ∈ sched →
    sched.foldl raceStep ⟨true, false, false, .connecting, .busy⟩ =
      ⟨false, true, true, .played, .busy⟩
  | w :: rest, h => by
    cases w
    · have hm : true ∈ rest := by simpa using h
      exact raceFromA rest hm
    · exact raceStuckA rest

/-- Symmetric version: task b holds the lock, task a was rejected. -/
lemma raceFromB : ∀ (sched : List Bool), false ∈ sched →
    sched.foldl raceStep ⟨true, false, false, .busy, .connecting⟩ =
      ⟨false, true, true, .busy, .played⟩
  | w :: rest, h => by
    cases w
    · exact raceStuckB rest
    · have hm : false ∈ rest := by simpa using h
      exact raceFromB rest hm

/-- Looking up the key just written returns the written value. -/
lemma regLookup_insert : ∀ (reg : Registry) (gid : Nat)
    (v : Option GuildVoiceRecord), regLookup (regInsert reg gid v) gid = some v
  | [], gid, v => by simp [regInsert, regLookup]
  | (g, r) :: rest, gid, v => by
    by_cases h : g = gid
    · simp [regInsert, regLookup, h]
    · simp [regInsert, regLookup, h, regLookup_insert rest gid v]

/-- Writing the same value at the same key twice equals writing it once. -/
lemma regInsert_idem : ∀ (reg : Registry) (gid : Nat)
    (v : Option GuildVoiceRecord),
    regInsert (regInsert reg gid v) gid v = regInsert reg gid v
  | [], gid, v => by simp [regInsert]
  | (g, r) :: rest, gid, v => by
    by_cases h : g = gid
    · simp [regInsert, h]
    · simp [regInsert, h, regInsert_idem rest gid v]

/-- Every guild seeded by init_guild_voice_records is bound to None. -/
lemma regLookup_init : ∀ (l : List Nat) (g : Nat), g ∈ l →
    regLookup (init_guild_voice_records l) g = some none
  | [], _, h => by simp at h
  | x :: rest, g, h => by
    by_cases hx : x = g
    · simp [init_guild_voice_records, regLookup, hx]
    · have hm : g ∈ rest := by
        rcases List.mem_cons.mp h with h1 | h1
        · exact absurd h1.symm hx
        · exact h1
      simpa [init_guild_voice_records, regLookup, hx]
        using regLookup_init rest g hm

/-!
Claim C1.
-/

/-- C1 counterexample: the claim states that a timed-out record whose
connection is not connected is left unchanged, but the sweeper clears the
entry before the connectivity check. Concrete input: threshold 5 minutes,
now 1000 s, a record from time 0 with last channel 5, guild resolvable but
no voice client. The entry becomes None although no disconnect or
notification happens, so the record is not left unchanged. -/
theorem c1_counterexample :
    sweepEntry 5 1000 ⟨true, false, false, false, false⟩ 0
        (some ⟨some 5, 0, false⟩) =
      ⟨none, [], [], false⟩ ∧
    some (GuildVoiceRecord.mk (some 5) 0 false) ≠
      (none : Option GuildVoiceRecord) := by
  decide

/-- C1 amended: in a sweep iteration with the guild resolvable and no
exception raised, a timed-out record with a connected client is cleared,
the client disconnected and the last channel (if present) notified; a
timed-out record without a connected client is also cleared, with no
disconnect and no notification; a record that is not timed out is left
unchanged with no effects. -/
theorem c1_timeout_transition (tmins : Nat) (now : Nat) (env : GuildEnv)
    (gid : Nat) (r : GuildVoiceRecord) (hf : env.found = true)
    (hd : env.disconnectRaises = false) (hs : env.sendRaises = false) :
    (r.should_timeout tmins now = true → env.hasVClient = true →
      env.connected = true →
      sweepEntry tmins now env gid (some r) = ⟨none, [gid], r.send, false⟩) ∧
    (r.should_timeout tmins now = true →
      (env.hasVClient && env.connected) = false →
      sweepEntry tmins now env gid (some r) = ⟨none, [], [], false⟩) ∧
    (r.should_timeout tmins now = false →
      sweepEntry tmins now env gid (some r) = ⟨some r, [], [], false⟩) := by
  refine ⟨?_, ?_, ?_⟩
  · intro ht hv hc
    simp [sweepEntry, hf, hd, hs, ht, hv, hc]
  · intro ht hvc
    simp [sweepEntry, hf, ht, hvc]
  · intro ht
    simp [sweepEntry, hf, ht]

/-- C1 witness: the amended theorem applied at a concrete timed-out record
with a connected client, at a timed-out record with no client, and at a
fresh record. -/
theorem c1_witness :
    (GuildVoiceRecord.mk (some 5) 0 false).should_timeout 5 1000 = true ∧
    sweepEntry 5 1000 ⟨true, true, true, false, false⟩ 0
        (some ⟨some 5, 0, false⟩) = ⟨none, [0], [5], false⟩ ∧
    sweepEntry 5 1000 ⟨true, true, false, false, false⟩ 0
        (some ⟨some 5, 0, false⟩) = ⟨none, [], [], false⟩ ∧
    sweepEntry 5 100 ⟨true, true, true, false, false⟩ 0
        (some ⟨some 5, 0, false⟩) = ⟨some ⟨some 5, 0, false⟩, [], [], false⟩ :=
  ⟨by decide,
   (c1_timeout_transition 5 1000 ⟨true, true, true, false, false⟩ 0
      ⟨some 5, 0, false⟩ rfl rfl rfl).1 (by decide) rfl rfl,
   (c1_timeout_transition 5 1000 ⟨true, true, false, false, false⟩ 0
      ⟨some 5, 0, false⟩ rfl rfl rfl).2.1 (by decide) (by decide),
   (c1_timeout_transition 5 100 ⟨true, true, true, false, false⟩ 0
      ⟨some 5, 0, false⟩ rfl rfl rfl).2.2 (by decide)⟩

/-!
Claim C5.
-/

/-- C5 counterexample: the claim covers tenants whose record is null or
absent, but the sweep iterates only over registry entries, so a tenant
absent from the registry gains no placeholder even though its connection
reports connected. Concrete input: empty registry, every guild resolvable
and connected, tenant 7 absent; after one full cycle the registry is still
empty and tenant 7 still has no entry, with no notifications sent. -/
theorem c5_counterexample :
    sweepCycle 5 100 (fun _ => ⟨true, true, true, false, false⟩) [] =
      ⟨[], [], [], false⟩ ∧
    regLookup ([] : Registry) 7 = none := by
  decide

/-- C5 amended: a tenant present in the registry with a None record whose
guild is resolvable and whose client reports connected gains, in that sweep
iteration, an empty placeholder record carrying no notification channel,
and the iteration performs no disconnect and sends no notification; a
placeholder's send method targets no channel. Tenants absent from the
registry are not evaluated by the sweep. -/
theorem c5_reconciliation (tmins : Nat) (now : Nat) (env : GuildEnv)
    (gid : Nat) (hf : env.found = true) (hv : env.hasVClient = true)
    (hc : env.connected = true) :
    sweepEntry tmins now env gid none =
      ⟨some (GuildVoiceRecord.init none now), [], [], false⟩ ∧
    (GuildVoiceRecord.init none now).send = [] := by
  constructor
  · simp [sweepEntry, hf, hv, hc]
  · rfl

/-- C5 witness: the amended theorem at threshold 5, time 100, guild 2, with
a connected client. -/
theorem c5_witness :
    sweepEntry 5 100 ⟨true, true, true, false, false⟩ 2 none =
      ⟨some (GuildVoiceRecord.init none 100), [], [], false⟩ ∧
    (GuildVoiceRecord.init none 100).send = [] :=
  c5_reconciliation 5 100 ⟨true, true, true, false, false⟩ 2 rfl rfl rfl

/-!
Claim C7.
-/

/-- C7 counterexample: the claim states the sweeper performs no action on
an already-null record, but when the client still reports connected the
reconciliation branch runs and writes a placeholder record. Concrete input:
threshold 5, time 100, guild resolvable and connected, entry None; the
entry changes from None to a placeholder record. -/
theorem c7_counterexample :
    sweepEntry 5 100 ⟨true, true, true, false, false⟩ 0 none =
      ⟨some (GuildVoiceRecord.init none 100), [], [], false⟩ ∧
    some (GuildVoiceRecord.init none 100) ≠
      (none : Option GuildVoiceRecord) := by
  decide

/-- C7 amended: clearing an entry is idempotent (clearing twice leaves the
same registry as clearing once), lookup after clear yields the null record,
and the sweeper evaluating a null record performs no action when the
tenant's client is not connected; when it is connected the iteration writes
a placeholder but still performs no disconnect and sends no notification. -/
theorem c7_clear_idempotent (reg : Registry) (gid : Nat) (tmins : Nat)
    (now : Nat) (env : GuildEnv) (hf : env.found = true)
    (hvc : (env.hasVClient && env.connected) = false) :
    regInsert (regInsert reg gid none) gid none = regInsert reg gid none ∧
    regLookup (regInsert reg gid none) gid = some none ∧
    sweepEntry tmins now env gid none = ⟨none, [], [], false⟩ := by
  refine ⟨regInsert_idem reg gid none, regLookup_insert reg gid none, ?_⟩
  simp [sweepEntry, hf, hvc]

/-- C7 witness: the amended theorem at a concrete registry holding a record
for guild 0, clearing guild 0, with a disconnected client. -/
theorem c7_witness :
    regInsert (regInsert [(0, some ⟨some 4, 3, false⟩)] 0 none) 0 none =
      regInsert [(0, some ⟨some 4, 3, false⟩)] 0 none ∧
    regLookup (regInsert [(0, some ⟨some 4, 3, false⟩)] 0 none) 0 =
      some none ∧
    sweepEntry 5 100 ⟨true, false, false, false, false⟩ 0 none =
      ⟨none, [], [], false⟩ :=
  c7_clear_idempotent [(0, some ⟨some 4, 3, false⟩)] 0 5 100
    ⟨true, false, false, false, false⟩ rfl rfl

/-!
Claim C8.
-/

/-- C8 confirmed: the timeout predicate holds exactly when the recorded
activity time plus the threshold in minutes, converted to seconds, is
strictly earlier than now. Consequently, with threshold 5 minutes, a record
active at time 0 with a live connection is left alone by every sweep at or
before 300 s and is cleared and disconnected by a sweep at 330 s. -/
theorem c8_timeout_boundary :
    (∀ (tmins : Nat) (now : Nat) (r : GuildVoiceRecord),
      r.should_timeout tmins now = true ↔ r.dt + tmins * 60 < now) ∧
    (∀ t : Nat, t ≤ 300 →
      (GuildVoiceRecord.mk (some 1) 0 false).should_timeout 5 t = false) ∧
    (∀ t : Nat, t ≤ 300 →
      sweepEntry 5 t ⟨true, true, true, false, false⟩ 0
        (some ⟨some 1, 0, false⟩) = ⟨some ⟨some 1, 0, false⟩, [], [], false⟩) ∧
    sweepEntry 5 330 ⟨true, true, true, false, false⟩ 0
      (some ⟨some 1, 0, false⟩) = ⟨none, [0], [1], false⟩ := by
  refine ⟨?_, ?_, ?_, by decide⟩
  · intro tmins now r
    simp [GuildVoiceRecord.should_timeout]
  · intro t ht
    simp only [GuildVoiceRecord.should_timeout, decide_eq_false_iff_not]
    omega
  · intro t ht
    have hto : (GuildVoiceRecord.mk (some 1) 0 false).should_timeout 5 t
        = false := by
      simp only [GuildVoiceRecord.should_timeout, decide_eq_false_iff_not]
      omega
    simp [sweepEntry, hto]

/-- C8 witness: the boundary facts at the sweep instants 300 s and 330 s. -/
theorem c8_witness :
    (300 : Nat) ≤ 300 ∧
    sweepEntry 5 300 ⟨true, true, true, false, false⟩ 0
      (some ⟨some 1, 0, false⟩) = ⟨some ⟨some 1, 0, false⟩, [], [], false⟩ ∧
    sweepEntry 5 330 ⟨true, true, true, false, false⟩ 0
      (some ⟨some 1, 0, false⟩) = ⟨none, [0], [1], false⟩ :=
  ⟨le_refl 300, c8_timeout_boundary.2.2.1 300 (le_refl 300),
   c8_timeout_boundary.2.2.2⟩

/-!
Claim C2.
-/

/-- C2 counterexample: the try block of inactivity_checker wraps the whole
while loop, so a failure in one tenant's iteration is not isolated to that
tenant. Concrete input: two tenants with timed-out records and connected
clients, where the disconnect for tenant 0 raises; the cycle aborts with
tenant 1 never evaluated (its timed-out record remains and it is not
disconnected), and the sweeper runs no further cycles even though five
intervals of fuel remain. -/
theorem c2_counterexample :
    sweepCycle 5 1000
        (fun g => if g = 0 then ⟨true, true, true, true, false⟩
                  else ⟨true, true, true, false, false⟩)
        [(0, some ⟨some 9, 0, false⟩), (1, some ⟨some 8, 0, false⟩)] =
      ⟨[(0, none), (1, some ⟨some 8, 0, false⟩)], [], [], true⟩ ∧
    runSweeper 5
        (fun g => if g = 0 then ⟨true, true, true, true, false⟩
                  else ⟨true, true, true, false, false⟩)
        30 5 1000
        [(0, some ⟨some 9, 0, false⟩), (1, some ⟨some 8, 0, false⟩)] =
      ([(0, none), (1, some ⟨some 8, 0, false⟩)], 1) := by
  decide

/-- C2 amended: an unexpected failure raised while evaluating one tenant is
logged and terminates the sweeper. The cycle in which it happens stops at
that tenant, leaving every remaining tenant's entry untouched, and no
subsequent cycle runs: the failure is fatal to the sweeper, not isolated to
the tenant. -/
theorem c2_sweeper_aborts :
    (∀ (tmins now : Nat) (env : Nat → GuildEnv) (gid : Nat)
      (r : Option GuildVoiceRecord) (rest : Registry),
      (sweepEntry tmins now (env gid) gid r).raised = true →
      sweepCycle tmins now env ((gid, r) :: rest) =
        ⟨(gid, (sweepEntry tmins now (env gid) gid r).entry) :: rest,
         (sweepEntry tmins now (env gid) gid r).disconnects,
         (sweepEntry tmins now (env gid) gid r).notified, true⟩) ∧
    (∀ (tmins interval n now : Nat) (env : Nat → GuildEnv) (reg : Registry),
      (sweepCycle tmins now env reg).aborted = true →
      runSweeper tmins env interval (n + 1) now reg =
        ((sweepCycle tmins now env reg).reg, 1)) := by
  constructor
  · intro tmins now env gid r rest h
    simp [sweepCycle, h]
  · intro tmins interval n now env reg h
    simp [runSweeper, h]

/-- C2 witness: the amended theorem applied to the concrete two-tenant
registry where tenant 0's disconnect raises. -/
theorem c2_witness :
    (sweepEntry 5 1000 ⟨true, true, true, true, false⟩ 0
        (some ⟨some 9, 0, false⟩)).raised = true ∧
    sweepCycle 5 1000 (fun _ => ⟨true, true, true, true, false⟩)
        [(0, some ⟨some 9, 0, false⟩), (1, some ⟨some 8, 0, false⟩)] =
      ⟨(0, (sweepEntry 5 1000 ⟨true, true, true, true, false⟩ 0
              (some ⟨some 9, 0, false⟩)).entry) ::
          [(1, some ⟨some 8, 0, false⟩)],
       (sweepEntry 5 1000 ⟨true, true, true, true, false⟩ 0
          (some ⟨some 9, 0, false⟩)).disconnects,
       (sweepEntry 5 1000 ⟨true, true, true, true, false⟩ 0
          (some ⟨some 9, 0, false⟩)).notified, true⟩ ∧
    runSweeper 5 (fun _ => ⟨true, true, true, true, false⟩) 30 4 1000
        [(0, some ⟨some 9, 0, false⟩)] =
      ((sweepCycle 5 1000 (fun _ => ⟨true, true, true, true, false⟩)
          [(0, some ⟨some 9, 0, false⟩)]).reg, 1) :=
  ⟨by decide,
   c2_sweeper_aborts.1 5 1000 (fun _ => ⟨true, true, true, true, false⟩) 0
     (some ⟨some 9, 0, false⟩) [(1, some ⟨some 8, 0, false⟩)] (by decide),
   c2_sweeper_aborts.2 5 30 3 1000 (fun _ => ⟨true, true, true, true, false⟩)
     [(0, some ⟨some 9, 0, false⟩)] (by decide)⟩

/-!
Claim C3.
-/

/-- C3 counterexample: the claim says both soundboard and text-to-speech
fail fast with a busy rejection when the guild lock is held, but saylang
(reached by say as well) enters a bare async with on the lock: with the
lock held it suspends and queues rather than raising. Concrete input: a
valid language and text, lock held, author in voice channel 3. -/
theorem c3_counterexample :
    saylang ["en-uk"] (some "en-uk") (some "hello") true
        ⟨some 3, false, false, 0, false, false⟩ = CmdOutcome.queuedOnLock ∧
    (CmdOutcome.queuedOnLock ≠ CmdOutcome.crime Crime.lockBusy) ∧
    saylangLockGate true = LockGate.queuedOnLock := by
  decide

/-- C3 amended: of the quick playback commands, only the soundboard fails
fast: both playback branches of sb raise the typed busy crime when the lock
is already held, while text-to-speech (saylang, and say through it) blocks
on the held lock and queues. -/
theorem c3_lock_protocols :
    (∀ (cats : SoundCatalog) (randCat randSound : String) (ctx : VoiceCtx),
      cats.lookup "random" = none →
      sb cats (some "random") randCat randSound true ctx =
        .crime .lockBusy) ∧
    (∀ (cats : SoundCatalog) (d : String) (randCat randSound : String)
      (ctx : VoiceCtx) (c : String), d ≠ "all" → cats.lookup d = none →
      soundToCategory cats d = some c →
      sb cats (some d) randCat randSound true ctx = .crime .lockBusy) ∧
    (∀ (langs : List String) (l txt : String) (ctx : VoiceCtx),
      saylang langs (some l) (some txt) true ctx = .queuedOnLock) ∧
    sbLockGate true = .failFast .lockBusy ∧
    saylangLockGate true = .queuedOnLock := by
  refine ⟨?_, ?_, ?_, rfl, rfl⟩
  · intro cats randCat randSound ctx h
    simp [sb, h]
  · intro cats d randCat randSound ctx c hall hcat hsound
    simp [sb, hall, hcat, hsound]
  · intro langs l txt ctx
    simp [saylang]

/-- C3 witness: the amended theorem at a concrete one-category catalog with
sound dog, for the random branch, the named-sound branch and
text-to-speech. -/
theorem c3_witness :
    ([("animals", ["dog"])] : SoundCatalog).lookup "random" = none ∧
    sb [("animals", ["dog"])] (some "random") "animals" "dog" true
        ⟨some 3, false, false, 0, false, false⟩ = .crime .lockBusy ∧
    sb [("animals", ["dog"])] (some "dog") "animals" "dog" true
        ⟨some 3, false, false, 0, false, false⟩ = .crime .lockBusy ∧
    saylang ["en-uk"] (some "en-uk") (some "hello") true
        ⟨some 3, false, false, 0, false, false⟩ = .queuedOnLock :=
  ⟨by decide,
   c3_lock_protocols.1 [("animals", ["dog"])] "animals" "dog"
     ⟨some 3, false, false, 0, false, false⟩ (by decide),
   c3_lock_protocols.2.1 [("animals", ["dog"])] "dog" "animals" "dog"
     ⟨some 3, false, false, 0, false, false⟩ "animals" (by decide) (by decide)
     (by decide),
   c3_lock_protocols.2.2.1 ["en-uk"] "en-uk" "hello"
     ⟨some 3, false, false, 0, false, false⟩⟩

/-!
Claim C4.
-/

/-- C4 counterexample: leave can stop playback (its disconnect tears the
stream down) yet carries no requires_guild_update decorator, so it records
no activity. Concrete inputs: with an empty registry and no voice client it
raises the typed denial and afterwards no record exists for the tenant; and
with an existing record and a voice client it sets the entry to None
instead of updating its channel and timestamp. -/
theorem c4_counterexample :
    (leave [] 0 false false).2 = ([] : Registry) ∧
    regLookup ([] : Registry) 0 = none ∧
    (leave [(0, some ⟨some 7, 10, false⟩)] 0 true false).2 = [(0, none)] := by
  decide

/-- C4 amended: every playback-affecting command carrying the
requires_guild_update decorator records activity first: for every prior
registry state the registry passed to the command body, which is also the
registry left behind when the body fails, binds the tenant to a record
whose channel is the invoking channel and whose timestamp is now. The
exception is leave, which records no activity: with no voice client it
returns the typed denial with the registry unchanged, and otherwise it sets
the entry to None. -/
theorem c4_activity_first :
    (∀ (β : Type) (body : Registry → β) (reg : Registry) (gid ch now : Nat),
      ∃ r : GuildVoiceRecord,
        regLookup (requires_guild_update body reg gid ch now).2 gid =
          some (some r) ∧ r.last_channel = some ch ∧ r.dt = now) ∧
    (∀ (β : Type) (body : Registry → β) (reg : Registry) (gid ch now : Nat),
      (requires_guild_update body reg gid ch now).1 =
        body (recordActivity reg gid ch now)) ∧
    (∀ (reg : Registry) (gid : Nat) (dr : Bool),
      leave reg gid false dr = (.crime .notInAVoiceChannelLeave, reg)) ∧
    (∀ (reg : Registry) (gid : Nat) (dr : Bool),
      (leave reg gid true dr).2 = regInsert reg gid none) := by
  refine ⟨?_, ?_, ?_, ?_⟩
  · intro β body reg gid ch now
    unfold requires_guild_update recordActivity
    cases h : regGet reg gid with
    | some r =>
      exact ⟨r.update ch now, by simp [h, regLookup_insert], rfl, rfl⟩
    | none =>
      exact ⟨GuildVoiceRecord.init (some ch) now,
        by simp [h, regLookup_insert], rfl, rfl⟩
  · intro β body reg gid ch now
    rfl
  · intro reg gid dr
    simp [leave]
  · intro reg gid dr
    cases dr <;> simp [leave]

/-!
Claim C9.
-/

/-- C9 counterexample: init_guild_voice_records seeds only the guilds the
startup enumeration yields, and per the code's own NOTE the fetch grabs at
most 100 of them. Concrete input: 101 tenants known to the connection layer
at startup; tenant 100 is known yet has no entry at all in the registry the
first sweep iterates over. -/
theorem c9_counterexample :
    (100 : Nat) ∈ List.range 101 ∧
    regLookup (startupRegistry (List.range 101)) 100 = none := by
  decide

/-- C9 amended: initialization runs to completion before the sweeper
starts, and every tenant actually yielded by the startup enumeration, which
is capped at the first 100 known tenants, is bound to the null record in
the registry the first sweep cycle iterates over. -/
theorem c9_startup_seeding (known : List Nat) (g : Nat)
    (h : g ∈ fetch_guilds known) :
    regLookup (startupRegistry known) g = some none :=
  regLookup_init (fetch_guilds known) g h

/-- C9 witness: the amended theorem at a two-tenant startup enumeration. -/
theorem c9_witness :
    (3 : Nat) ∈ fetch_guilds [3, 4] ∧
    regLookup (startupRegistry [3, 4]) 3 = some none :=
  ⟨by decide, c9_startup_seeding [3, 4] 3 (by decide)⟩

/-!
Claim C10.
-/

/-- C10 confirmed: leave with a voice client clears the tenant's entry
before awaiting the disconnect, so the entry is the null record afterwards
even when the disconnect raises; it never updates the last-activity
timestamp or channel (the resulting registry is either unchanged or the
cleared one); and with no voice client it returns the typed denial and the
registry untouched. -/
theorem c10_leave_clears_first :
    (∀ (reg : Registry) (gid : Nat) (dr : Bool),
      (leave reg gid true dr).2 = regInsert reg gid none ∧
      regLookup (leave reg gid true dr).2 gid = some none) ∧
    (∀ (reg : Registry) (gid : Nat),
      (leave reg gid true true).1 = .disconnectFailed ∧
      regLookup (leave reg gid true true).2 gid = some none) ∧
    (∀ (reg : Registry) (gid : Nat) (dr : Bool),
      leave reg gid false dr = (.crime .notInAVoiceChannelLeave, reg)) ∧
    (∀ (reg : Registry) (gid : Nat) (hv dr : Bool),
      (leave reg gid hv dr).2 = reg ∨
      (leave reg gid hv dr).2 = regInsert reg gid none) := by
  refine ⟨?_, ?_, ?_, ?_⟩
  · intro reg gid dr
    cases dr <;> exact ⟨rfl, regLookup_insert reg gid none⟩
  · intro reg gid
    exact ⟨rfl, regLookup_insert reg gid none⟩
  · intro reg gid dr
    simp [leave]
  · intro reg gid hv dr
    cases hv
    · exact Or.inl rfl
    · cases dr <;> exact Or.inr rfl

/-!
Claim C6.
-/

/-- C6 confirmed, over the interleaving model of two concurrent sb playback
invocations on one guild with no existing connection. First, mutual
exclusion: under every schedule, the two tasks are never simultaneously
inside the guarded region (having observed the lock free and acquired it),
and never do both complete a connect. Second, the simultaneous-arrival
scenario: when both tasks run their first atomic segment before either runs
its second (the schedule starts with the two distinct tasks) and the winner
is eventually scheduled again, exactly one task connects and plays while
the other ends with the typed busy rejection. -/
theorem c6_mutual_exclusion :
    (∀ sched : List Bool,
      ¬((raceRun sched).a = .connecting ∧ (raceRun sched).b = .connecting)) ∧
    (∀ sched : List Bool,
      ¬((raceRun sched).a = .played ∧ (raceRun sched).b = .played)) ∧
    (∀ (w : Bool) (rest : List Bool), w ∈ rest →
      raceRun (w :: (!w) :: rest) =
        if w then ⟨false, true, true, .played, .busy⟩
        else ⟨false, true, true, .busy, .played⟩) := by
  refine ⟨?_, ?_, ?_⟩
  · intro sched ⟨ha, hb⟩
    have h := raceInv_run sched
    simp [raceInv, ha, hb] at h
  · intro sched ⟨ha, hb⟩
    have h := raceInv_run sched
    simp [raceInv, ha, hb] at h
  · intro w rest hm
    cases w
    · have : raceRun (false :: (!false) :: rest) =
          rest.foldl raceStep ⟨true, false, false, .busy, .connecting⟩ := rfl
      rw [this, raceFromB rest hm]
      rfl
    · have : raceRun (true :: (!true) :: rest) =
          rest.foldl raceStep ⟨true, false, false, .connecting, .busy⟩ := rfl
      rw [this, raceFromA rest hm]
      rfl

/-- C6 witness: the race theorem at the canonical schedule where task a
arrives first, task b arrives in the same instant and a is resumed once:
a connects and plays, b is rejected busy. -/
theorem c6_witness :
    true ∈ [true] ∧
    raceRun [true, false, true] =
      ⟨false, true, true, .played, .busy⟩ := by
  refine ⟨by decide, ?_⟩
  have h := c6_mutual_exclusion.2.2 true [true] (by decide)
  simpa using h

end DiscordBot
